import Mathlib

/-!
# Verification of the DHT11 driver core of `home-monitor`

Shallow embedding of `src/components/dht11/dht11.c` / `dht11.h`
(pulse timer, bit decoder, read attempt, retry-and-cache controller,
formatted-string accessors) together with proofs of the spec's testable
properties.

Modelling conventions:
* machine integers are `Nat` / `Int`, with `% 256` where `uint8_t`
  truncation matters;
* `float` values (`temperature`, `humidity`) are modelled as `ℚ`; every
  value the claims mention (`b + b'/10` with `b' ∈ {0, 5}`) is exactly
  representable in binary floating point, so the rational model agrees
  with the C `float` arithmetic on all inputs considered;
* wall-clock time is discretised at 1 µs: a pin-level history is a
  function `Nat → Nat` from elapsed microseconds (since the start of one
  `wait_for_pin_state` call) to the GPIO level, `esp_rom_delay_us 1`
  advances time by one tick, and reading the clock or the pin costs no
  model time;
* the environment of one full read attempt (acknowledgment handshake and
  forty decoded bits, `dht11.c` lines 369–445) is abstracted as an
  `AttemptOutcome`: either the protocol failed (an ack timeout or any
  `read_bit` error, all of which make `dht11_read_attempt` return
  `ESP_FAIL` before the checksum test) or a 5-byte raw frame was
  assembled.
-/

namespace DHT11

/-! ## Constants from `dht11.h` -/

/-- `#define DHT11_START_LOW_TIME 18000` (`dht11.h` line 20). -/
def DHT11_START_LOW_TIME : Nat := 18000

/-- `#define DHT11_START_HIGH_TIME 20` (`dht11.h` line 21). -/
def DHT11_START_HIGH_TIME : Nat := 20

/-- `#define DHT11_RESPONSE_TIMEOUT 100` (`dht11.h` line 22). -/
def DHT11_RESPONSE_TIMEOUT : Nat := 100

/-- `#define DHT11_BIT_TIMEOUT 100` (`dht11.h` line 23). -/
def DHT11_BIT_TIMEOUT : Nat := 100

/-- `#define DHT11_BIT_THRESHOLD 50` (`dht11.h` line 24). -/
def DHT11_BIT_THRESHOLD : Nat := 50

/-- `#define DHT11_TEMP_MIN 0` (`dht11.h` line 27). -/
def DHT11_TEMP_MIN : Nat := 0

/-- `#define DHT11_TEMP_MAX 50` (`dht11.h` line 28). -/
def DHT11_TEMP_MAX : Nat := 50

/-- `#define DHT11_HUMIDITY_MIN 20` (`dht11.h` line 29). -/
def DHT11_HUMIDITY_MIN : Nat := 20

/-- `#define DHT11_HUMIDITY_MAX 95` (`dht11.h` line 30). -/
def DHT11_HUMIDITY_MAX : Nat := 95

/-- Modelled from the spec: `DHT11_MAX_RETRIES` is referenced by
`dht11_read` (`dht11.c` lines 527–547) but its `#define` is not among the
provided sources.  The spec fixes it as "repeated up to `MAX_RETRIES`, a
fixed small integer, e.g. 3", and the repository README states "Up to 3
attempts with 500ms delays between attempts". -/
def DHT11_MAX_RETRIES : Nat := 3

/-! ## ESP-IDF result codes (`esp_err.h`) -/

/-- The `esp_err_t` values the DHT11 driver produces. -/
inductive EspErr where
  | ESP_OK
  | ESP_FAIL
  | ESP_ERR_INVALID_ARG
deriving DecidableEq

/-- `dht11_data_t` (`dht11.h` lines 35–39): temperature in Celsius,
relative humidity in percent, and the checksum-validity flag. -/
structure dht11_data_t where
  temperature : ℚ
  humidity : ℚ
  valid : Bool
deriving DecidableEq

/-! ## Pulse timer: `wait_for_pin_state` (`dht11.c` lines 126–149) -/

/-- One polling iteration of `wait_for_pin_state`, with explicit fuel.
At elapsed time `t` the loop body reads the pin: on a match it returns
the elapsed time, otherwise it returns `-1` if `t` exceeds the timeout
budget and polls again one microsecond later if not.  The fuel is chosen
large enough (`timeout_us + 2`) that it never runs out before the
timeout check fires, so the `0`-fuel branch is unreachable. -/
def wait_for_pin_state_loop (trace : Nat → Nat) (expected_level : Nat)
    (timeout_us : Nat) : Nat → Nat → Int
  | 0, _ => -1
  | fuel + 1, t =>
    if trace t = expected_level then (t : Int)
    else if timeout_us < t then -1
    else wait_for_pin_state_loop trace expected_level timeout_us fuel (t + 1)

/-- `wait_for_pin_state(expected_level, timeout_us)`: records the start
time, delays 1 µs, then polls `gpio_get_level(DHT11_DATA_PIN)` until it
equals `expected_level` (returning the elapsed microseconds) or the
elapsed time exceeds `timeout_us` (returning `-1`).  The pin history
seen by this call is `trace`. -/
def wait_for_pin_state (trace : Nat → Nat) (expected_level : Nat)
    (timeout_us : Nat) : Int :=
  wait_for_pin_state_loop trace expected_level timeout_us (timeout_us + 2) 1

/-- Any result of the polling loop started at time `t ≥ 1` is either the
timeout sentinel `-1` or an elapsed time `≥ t` at which the pin history
matched the expected level. -/
theorem wait_for_pin_state_loop_cases (trace : Nat → Nat) (lvl timeout_us : Nat) :
    ∀ fuel t, wait_for_pin_state_loop trace lvl timeout_us fuel t = -1 ∨
      ((t : Int) ≤ wait_for_pin_state_loop trace lvl timeout_us fuel t ∧
        trace (wait_for_pin_state_loop trace lvl timeout_us fuel t).toNat = lvl) := by
  intro fuel
  induction fuel with
  | zero => intro t; left; rfl
  | succ n ih =>
    intro t
    have hgoal : wait_for_pin_state_loop trace lvl timeout_us (n + 1) t =
        if trace t = lvl then (t : Int)
        else if timeout_us < t then -1
        else wait_for_pin_state_loop trace lvl timeout_us n (t + 1) := rfl
    rw [hgoal]
    by_cases hmatch : trace t = lvl
    · right
      simp [hmatch]
    · simp only [hmatch, if_false]
      by_cases hto : timeout_us < t
      · left
        simp [hto]
      · simp only [hto, if_false]
        rcases ih (t + 1) with h | ⟨h1, h2⟩
        · left
          exact h
        · right
          refine ⟨?_, h2⟩
          have ht : ((t : Int)) ≤ ((t + 1 : Nat) : Int) := by push_cast; omega
          exact ht.trans h1

/-- C6 (amended): `wait_for_pin_state` either returns the timeout
sentinel `-1`, or a strictly positive elapsed time at which the pin
history matched the expected level; in particular the timeout result is
disjoint from every possible successful elapsed-time result. -/
theorem wait_for_pin_state_timeout_disjoint (trace : Nat → Nat)
    (lvl timeout_us : Nat) :
    wait_for_pin_state trace lvl timeout_us = -1 ∨
      (1 ≤ wait_for_pin_state trace lvl timeout_us ∧
        trace (wait_for_pin_state trace lvl timeout_us).toNat = lvl) := by
  rcases wait_for_pin_state_loop_cases trace lvl timeout_us (timeout_us + 2) 1 with
    h | ⟨h1, h2⟩
  · left; exact h
  · right
    exact ⟨by exact_mod_cast h1, h2⟩

/-- C6 (counterexample): on timeout `wait_for_pin_state` returns `-1`,
which is a negative sentinel value — refuting the claim that the timeout
result is "never a negative or sentinel magic number". -/
theorem wait_for_pin_state_timeout_is_negative_sentinel :
    wait_for_pin_state (fun _ => 0) 1 100 = -1 ∧ ((-1 : Int) < 0) := by
  constructor
  · decide
  · decide

/-! ## Bit decoder: `read_bit` (`dht11.c` lines 184–228)

One `read_bit` call performs three `wait_for_pin_state` calls in
sequence (wait for low, wait for high, measure the high pulse).  Each
call measures elapsed time from its own start, so the pin history seen
by each is modelled as its own trace (`t1`, `t2`, `t3`). -/

/-- `read_bit()`: waits for the start-of-bit low pulse and the data
high pulse, measures the high-pulse duration, rejects implausible
durations (`< 15` or `> 100` µs), and otherwise thresholds against
`DHT11_BIT_THRESHOLD`.  Returns `1` or `0` for a decoded bit and `-1`
on any timeout or on an implausible pulse width. -/
def read_bit (t1 t2 t3 : Nat → Nat) : Int :=
  let low_wait := wait_for_pin_state t1 0 DHT11_BIT_TIMEOUT
  if low_wait < 0 then -1
  else
    let high_wait := wait_for_pin_state t2 1 DHT11_BIT_TIMEOUT
    if high_wait < 0 then -1
    else
      let high_time := wait_for_pin_state t3 0 DHT11_BIT_TIMEOUT
      if high_time < 0 then -1
      else if high_time < 15 ∨ 100 < high_time then -1
      else if (DHT11_BIT_THRESHOLD : Int) < high_time then 1 else 0

/-- Evaluation of `read_bit` when the two leading waits succeed and the
high-pulse measurement yields `d` (shared support lemma). -/
theorem read_bit_eval (t1 t2 t3 : Nat → Nat) (d : Int)
    (h1 : 0 ≤ wait_for_pin_state t1 0 DHT11_BIT_TIMEOUT)
    (h2 : 0 ≤ wait_for_pin_state t2 1 DHT11_BIT_TIMEOUT)
    (h3 : wait_for_pin_state t3 0 DHT11_BIT_TIMEOUT = d) :
    (15 ≤ d → d ≤ 100 →
      read_bit t1 t2 t3 = if (DHT11_BIT_THRESHOLD : Int) < d then 1 else 0) ∧
    (0 ≤ d → (d < 15 ∨ 100 < d) → read_bit t1 t2 t3 = -1) := by
  have hn1 : ¬ wait_for_pin_state t1 0 DHT11_BIT_TIMEOUT < 0 := not_lt.mpr h1
  have hn2 : ¬ wait_for_pin_state t2 1 DHT11_BIT_TIMEOUT < 0 := not_lt.mpr h2
  constructor
  · intro hlo hhi
    have hn3 : ¬ d < 0 := by omega
    have hrange : ¬ (d < 15 ∨ 100 < d) := by omega
    simp [read_bit, hn1, hn2, h3, hn3, hrange]
  · intro hd0 hrange
    have hn3 : ¬ d < 0 := not_lt.mpr hd0
    simp [read_bit, hn1, hn2, h3, hn3, hrange]

/-- C3: when the two leading waits succeed and the measured high-pulse
duration is `d`, `read_bit` decodes every plausible `d` (in `[15, 100]`)
to `1` exactly when `d > DHT11_BIT_THRESHOLD` and to `0` when
`d ≤ DHT11_BIT_THRESHOLD`, and produces the invalid-pulse-width error
`-1` for every measured `d` below the floor `15` or above the ceiling
`100`, regardless of the threshold comparison. -/
theorem read_bit_threshold_monotone (t1 t2 t3 : Nat → Nat) (d : Int)
    (h1 : 0 ≤ wait_for_pin_state t1 0 DHT11_BIT_TIMEOUT)
    (h2 : 0 ≤ wait_for_pin_state t2 1 DHT11_BIT_TIMEOUT)
    (h3 : wait_for_pin_state t3 0 DHT11_BIT_TIMEOUT = d) :
    (15 ≤ d → d ≤ 100 →
      read_bit t1 t2 t3 = if (DHT11_BIT_THRESHOLD : Int) < d then 1 else 0) ∧
    (0 ≤ d → (d < 15 ∨ 100 < d) → read_bit t1 t2 t3 = -1) :=
  read_bit_eval t1 t2 t3 d h1 h2 h3

/-- C3 (witness): concrete traces in which the leading waits succeed and
the high pulse measures 70 µs; `read_bit` decodes the bit as `1`. -/
theorem read_bit_threshold_monotone_witness :
    (0 ≤ wait_for_pin_state (fun _ => 0) 0 DHT11_BIT_TIMEOUT) ∧
    (0 ≤ wait_for_pin_state (fun _ => 1) 1 DHT11_BIT_TIMEOUT) ∧
    (wait_for_pin_state (fun t => if t < 70 then 1 else 0) 0 DHT11_BIT_TIMEOUT = 70) ∧
    read_bit (fun _ => 0) (fun _ => 1) (fun t => if t < 70 then 1 else 0) = 1 := by
  refine ⟨by decide, by decide, by decide, ?_⟩
  have h := (read_bit_threshold_monotone (fun _ => 0) (fun _ => 1)
    (fun t => if t < 70 then 1 else 0) 70 (by decide) (by decide) (by decide)).1
    (by decide) (by decide)
  simpa using h

/-- C5 (counterexample): a plain timeout (the start-of-bit low pulse
never arrives: the line stays high) and an observed-but-implausible
pulse (the high pulse measures 5 µs, below the 15 µs floor) make
`read_bit` return the very same result value `-1` — the two failure
kinds are not distinct as result values. -/
theorem read_bit_error_values_coincide :
    read_bit (fun _ => 1) (fun _ => 1) (fun _ => 1) =
      read_bit (fun _ => 0) (fun _ => 1) (fun t => if t < 5 then 1 else 0) ∧
    read_bit (fun _ => 1) (fun _ => 1) (fun _ => 1) = -1 := by
  constructor
  · decide
  · decide

/-- C5 (amended): an observed pulse whose measured duration falls
outside the plausible bounds makes `read_bit` fail via a dedicated
invalid-pulse-width check, but the returned error value is `-1` — the
same value `read_bit` returns when an expected transition never occurs
within budget; the two failure kinds are distinguished only by which
internal branch (and log message) fires, not by the result value. -/
theorem read_bit_invalid_width_same_error_as_timeout
    (t1 t2 t3 u1 u2 u3 : Nat → Nat) (d : Int)
    (h1 : 0 ≤ wait_for_pin_state t1 0 DHT11_BIT_TIMEOUT)
    (h2 : 0 ≤ wait_for_pin_state t2 1 DHT11_BIT_TIMEOUT)
    (h3 : wait_for_pin_state t3 0 DHT11_BIT_TIMEOUT = d)
    (hd0 : 0 ≤ d) (hd : d < 15 ∨ 100 < d)
    (hu : wait_for_pin_state u1 0 DHT11_BIT_TIMEOUT < 0) :
    read_bit t1 t2 t3 = -1 ∧ read_bit u1 u2 u3 = -1 ∧
      read_bit t1 t2 t3 = read_bit u1 u2 u3 := by
  have hinv : read_bit t1 t2 t3 = -1 :=
    (read_bit_eval t1 t2 t3 d h1 h2 h3).2 hd0 hd
  have hto : read_bit u1 u2 u3 = -1 := by
    simp [read_bit, hu]
  exact ⟨hinv, hto, by rw [hinv, hto]⟩

/-- C5 (amended, witness): concrete traces realising an invalid pulse
width (5 µs) and a plain timeout; both `read_bit` results are `-1`. -/
theorem read_bit_invalid_width_same_error_as_timeout_witness :
    read_bit (fun _ => 0) (fun _ => 1) (fun t => if t < 5 then 1 else 0) = -1 ∧
    read_bit (fun _ => 1) (fun _ => 0) (fun _ => 0) = -1 ∧
    read_bit (fun _ => 0) (fun _ => 1) (fun t => if t < 5 then 1 else 0) =
      read_bit (fun _ => 1) (fun _ => 0) (fun _ => 0) :=
  read_bit_invalid_width_same_error_as_timeout
    (fun _ => 0) (fun _ => 1) (fun t => if t < 5 then 1 else 0)
    (fun _ => 1) (fun _ => 0) (fun _ => 0) 5
    (by decide) (by decide) (by decide) (by decide) (by decide) (by decide)

/-! ## Frame acceptance and the read attempt
(`dht11_read_attempt`, `dht11.c` lines 355–495)

One attempt's transport/decoder environment is abstracted as an
`AttemptOutcome`: `protocolFail` covers every pre-checksum failure (an
acknowledgment wait timing out, lines 391–412, or any of the forty
`read_bit` calls returning `-1`, lines 421–432 and 486–494), all of
which return `ESP_FAIL` without reaching the checksum test; `frame`
carries the five assembled raw bytes.  The module-level cache
`last_reading` (`dht11.c` line 89) is passed in and returned
explicitly. -/

/-- Environment of one `dht11_read_attempt` call. -/
inductive AttemptOutcome where
  | protocolFail
  | frame (b0 b1 b2 b3 b4 : Nat)

/-- `uint8_t calculated_checksum = raw_data[0] + raw_data[1] +
raw_data[2] + raw_data[3]` (`dht11.c` line 450): `uint8_t` addition is
addition modulo 256. -/
def dht11_checksum (b0 b1 b2 b3 : Nat) : Nat :=
  (b0 + b1 + b2 + b3) % 256

/-- `dht11_read_attempt(data)` from the point where the environment's
outcome is fixed: the function first resets `*data` to
`{0.0, 0.0, false}` (lines 358–360); a protocol failure returns
`ESP_FAIL` with `*data` still reset; a received frame is checked
against its checksum byte (`raw_data[4]`, a `uint8_t`, hence `% 256`);
on mismatch the reading is discarded with `ESP_FAIL`; on match the
bytes are converted (`integer_byte + fractional_byte / 10.0`), `valid`
is set, and the reading is stored into `last_reading` (line 479).
Result: `(return value, *data, last_reading afterwards)`. -/
def dht11_read_attempt (out : AttemptOutcome) (last_reading : dht11_data_t) :
    EspErr × dht11_data_t × dht11_data_t :=
  let data0 : dht11_data_t := ⟨0, 0, false⟩
  match out with
  | .protocolFail => (EspErr.ESP_FAIL, data0, last_reading)
  | .frame b0 b1 b2 b3 b4 =>
    if dht11_checksum b0 b1 b2 b3 ≠ b4 % 256 then
      (EspErr.ESP_FAIL, data0, last_reading)
    else
      let data : dht11_data_t :=
        ⟨(b2 : ℚ) + (b3 : ℚ) / 10, (b0 : ℚ) + (b1 : ℚ) / 10, true⟩
      (EspErr.ESP_OK, data, data)

/-! ## Retry and cache controller: `dht11_read` (`dht11.c` lines 516–561) -/

/-- The retry loop of `dht11_read` (`for attempt = 1; attempt <=
DHT11_MAX_RETRIES; attempt++`), recursing on the number of remaining
attempts.  `env i` is the environment of the attempt numbered `i`.
Returns `(some data)` on the first successful attempt, `none` after all
remaining attempts failed, together with the cache afterwards and the
number of attempts actually performed. -/
def dht11_read_attempts (env : Nat → AttemptOutcome) :
    Nat → Nat → dht11_data_t → Option dht11_data_t × dht11_data_t × Nat
  | _, 0, last_reading => (none, last_reading, 0)
  | attempt, remaining + 1, last_reading =>
    match dht11_read_attempt (env attempt) last_reading with
    | (ret, data, last1) =>
      if ret = EspErr.ESP_OK then (some data, last1, 1)
      else
        match dht11_read_attempts env (attempt + 1) remaining last1 with
        | (res, last2, n) => (res, last2, n + 1)

/-- `dht11_read(data)` for a non-NULL `data` pointer: run up to
`DHT11_MAX_RETRIES` attempts, returning the first success; on
exhaustion, if `last_reading.valid` holds, return a copy of the cache
with `valid` forced to `false` and report `ESP_OK` (stale-data marker,
lines 550–557), otherwise report `ESP_FAIL` (line 560; `*data` then
still holds the reset value written by the last failed attempt).
Result: `(return value, *data, last_reading afterwards, attempts
performed)`. -/
def dht11_read (env : Nat → AttemptOutcome) (last_reading : dht11_data_t) :
    EspErr × dht11_data_t × dht11_data_t × Nat :=
  match dht11_read_attempts env 1 DHT11_MAX_RETRIES last_reading with
  | (some data, last1, n) => (EspErr.ESP_OK, data, last1, n)
  | (none, last1, n) =>
    if last1.valid then
      (EspErr.ESP_OK, ⟨last1.temperature, last1.humidity, false⟩, last1, n)
    else
      (EspErr.ESP_FAIL, ⟨0, 0, false⟩, last1, n)

/-- C1: a decoded 5-byte frame is converted into a valid Reading by
`dht11_read_attempt` exactly when the sum of its four data bytes modulo
256 equals the fifth byte; otherwise the attempt fails with `ESP_FAIL`
(the checksum-mismatch path) and the reading stays invalid. -/
theorem dht11_read_attempt_checksum_iff (b0 b1 b2 b3 b4 : Nat)
    (cache : dht11_data_t) (h4 : b4 < 256) :
    (((dht11_read_attempt (.frame b0 b1 b2 b3 b4) cache).1 = EspErr.ESP_OK ∧
        ((dht11_read_attempt (.frame b0 b1 b2 b3 b4) cache).2.1).valid = true) ↔
      (b0 + b1 + b2 + b3) % 256 = b4) ∧
    ((b0 + b1 + b2 + b3) % 256 ≠ b4 →
      (dht11_read_attempt (.frame b0 b1 b2 b3 b4) cache).1 = EspErr.ESP_FAIL ∧
        ((dht11_read_attempt (.frame b0 b1 b2 b3 b4) cache).2.1).valid = false) := by
  have hb : b4 % 256 = b4 := Nat.mod_eq_of_lt h4
  constructor
  · constructor
    · rintro ⟨h1, -⟩
      by_contra hne
      have hc : dht11_checksum b0 b1 b2 b3 ≠ b4 % 256 := by
        simpa [dht11_checksum, hb] using hne
      simp [dht11_read_attempt, hc] at h1
    · intro heq
      have hc : ¬ dht11_checksum b0 b1 b2 b3 ≠ b4 % 256 := by
        simp [dht11_checksum, hb, heq]
      simp [dht11_read_attempt, hc]
  · intro hne
    have hc : dht11_checksum b0 b1 b2 b3 ≠ b4 % 256 := by
      simpa [dht11_checksum, hb] using hne
    simp [dht11_read_attempt, hc]

/-- C1 (witness): the frame `[41, 0, 22, 5, 68]` with matching checksum
`(41+0+22+5) % 256 = 68` is accepted as a valid Reading. -/
theorem dht11_read_attempt_checksum_iff_witness :
    (68 : Nat) < 256 ∧
      (((dht11_read_attempt (.frame 41 0 22 5 68) ⟨0, 0, false⟩).1 = EspErr.ESP_OK ∧
          ((dht11_read_attempt (.frame 41 0 22 5 68) ⟨0, 0, false⟩).2.1).valid = true) ↔
        (41 + 0 + 22 + 5) % 256 = 68) :=
  ⟨by decide,
    (dht11_read_attempt_checksum_iff 41 0 22 5 68 ⟨0, 0, false⟩ (by decide)).1⟩

/-- A failing attempt leaves the cache untouched and `*data` reset
(shared support lemma). -/
theorem dht11_read_attempt_fail (out : AttemptOutcome) (c : dht11_data_t)
    (h : (dht11_read_attempt out c).1 ≠ EspErr.ESP_OK) :
    dht11_read_attempt out c = (EspErr.ESP_FAIL, ⟨0, 0, false⟩, c) := by
  cases out with
  | protocolFail => rfl
  | frame b0 b1 b2 b3 b4 =>
    by_cases hc : dht11_checksum b0 b1 b2 b3 ≠ b4 % 256
    · simp [dht11_read_attempt, hc]
    · exact absurd (by simp [dht11_read_attempt, hc]) h

/-- Unfolding of one iteration of the retry loop (shared support
lemma). -/
theorem dht11_read_attempts_succ (env : Nat → AttemptOutcome)
    (attempt remaining : Nat) (c : dht11_data_t) :
    dht11_read_attempts env attempt (remaining + 1) c =
      (match dht11_read_attempt (env attempt) c with
       | (ret, data, last1) =>
         if ret = EspErr.ESP_OK then (some data, last1, 1)
         else
           match dht11_read_attempts env (attempt + 1) remaining last1 with
           | (res, last2, n) => (res, last2, n + 1)) := rfl

/-- With an environment in which every attempt fails, the retry loop
performs every remaining attempt, leaves the cache unchanged and
reports no success (shared support lemma). -/
theorem dht11_read_attempts_all_fail (env : Nat → AttemptOutcome)
    (hfail : ∀ i c, (dht11_read_attempt (env i) c).1 ≠ EspErr.ESP_OK) :
    ∀ remaining attempt c,
      dht11_read_attempts env attempt remaining c = (none, c, remaining) := by
  intro remaining
  induction remaining with
  | zero => intro attempt c; rfl
  | succ n ih =>
    intro attempt c
    have hA := dht11_read_attempt_fail (env attempt) c (hfail attempt c)
    rw [dht11_read_attempts_succ, hA]
    simp [ih (attempt + 1) c]

/-- C2: if the cache holds a previously valid Reading and every attempt
fails, `dht11_read` performs exactly `DHT11_MAX_RETRIES` attempts and
returns `ESP_OK` with a copy of the cached Reading whose `valid` flag is
forced to `false`, leaving the cache itself unchanged. -/
theorem dht11_read_exhaustion_fallback (env : Nat → AttemptOutcome)
    (cache : dht11_data_t)
    (hfail : ∀ i c, (dht11_read_attempt (env i) c).1 ≠ EspErr.ESP_OK)
    (hvalid : cache.valid = true) :
    dht11_read env cache =
      (EspErr.ESP_OK, ⟨cache.temperature, cache.humidity, false⟩, cache,
        DHT11_MAX_RETRIES) := by
  unfold dht11_read
  rw [dht11_read_attempts_all_fail env hfail DHT11_MAX_RETRIES 1 cache]
  simp [hvalid]

/-- C2 (witness): with the cache pre-populated with the Reading
`{t = 22.5, h = 41, valid = true}` and an always-failing environment,
`dht11_read` returns that Reading with `valid = false` after exactly
`DHT11_MAX_RETRIES` attempts. -/
theorem dht11_read_exhaustion_fallback_witness :
    dht11_read (fun _ => AttemptOutcome.protocolFail) ⟨45 / 2, 41, true⟩ =
      (EspErr.ESP_OK, ⟨45 / 2, 41, false⟩, ⟨45 / 2, 41, true⟩,
        DHT11_MAX_RETRIES) :=
  dht11_read_exhaustion_fallback (fun _ => AttemptOutcome.protocolFail)
    ⟨45 / 2, 41, true⟩ (fun _ _ => by simp [dht11_read_attempt]) rfl

/-! ## Formatted-string accessors
(`dht11_get_temperature_string`, `dht11.c` lines 603–635;
`dht11_get_humidity_string`, lines 676–708)

`snprintf(buffer, n, "%.1fC", v)` / `snprintf(buffer, n, "%.0f%%", v)`
are modelled exactly for the value domain the driver produces: every
formatted value is `b + b' / 10` with byte `b` and `b' ∈ [0, 255]`, so
ten times the value is a nonnegative integer and `%.1f` prints its
integer quotient, a decimal point, and its last digit, while `%.0f`
rounds to the nearest integer.  The C `NULL`-pointer test on `buffer`
is modelled by the flag `buffer_is_null`, and the written string is
returned (`none` when nothing is written). -/

/-- `%.1f` rendering of a nonnegative rational with at most one
significant decimal, followed by the `C` unit suffix. -/
def format_temperature (v : ℚ) : String :=
  let tenths : Int := Rat.floor (v * 10)
  toString (tenths / 10) ++ "." ++ toString (tenths % 10) ++ "C"

/-- `%.0f` rendering of a nonnegative rational to the nearest integer,
followed by the `%` unit suffix. -/
def format_humidity (v : ℚ) : String :=
  toString (Rat.floor (v + 1 / 2)) ++ "%"

/-- `dht11_get_temperature_string(buffer, buffer_size)`: rejects a NULL
or undersized (`< 8`) buffer with `ESP_ERR_INVALID_ARG`; otherwise
calls `dht11_read`, preferring the fresh reading, then the cached
reading, then the placeholder `"--.-C"`.  Result: `(return value,
string written into the buffer, last_reading afterwards)`. -/
def dht11_get_temperature_string (env : Nat → AttemptOutcome)
    (last_reading : dht11_data_t) (buffer_size : Nat)
    (buffer_is_null : Bool) : EspErr × Option String × dht11_data_t :=
  if buffer_is_null = true ∨ buffer_size < 8 then
    (EspErr.ESP_ERR_INVALID_ARG, none, last_reading)
  else
    match dht11_read env last_reading with
    | (ret, data, last1, _) =>
      if ret = EspErr.ESP_OK ∧ data.valid = true then
        (EspErr.ESP_OK, some (format_temperature data.temperature), last1)
      else if last1.valid = true then
        (EspErr.ESP_OK, some (format_temperature last1.temperature), last1)
      else
        (EspErr.ESP_OK, some "--.-C", last1)

/-- `dht11_get_humidity_string(buffer, buffer_size)`: rejects a NULL or
undersized (`< 6`) buffer with `ESP_ERR_INVALID_ARG`; otherwise calls
`dht11_read`, preferring the fresh reading, then the cached reading,
then the placeholder `"--%"`. -/
def dht11_get_humidity_string (env : Nat → AttemptOutcome)
    (last_reading : dht11_data_t) (buffer_size : Nat)
    (buffer_is_null : Bool) : EspErr × Option String × dht11_data_t :=
  if buffer_is_null = true ∨ buffer_size < 6 then
    (EspErr.ESP_ERR_INVALID_ARG, none, last_reading)
  else
    match dht11_read env last_reading with
    | (ret, data, last1, _) =>
      if ret = EspErr.ESP_OK ∧ data.valid = true then
        (EspErr.ESP_OK, some (format_humidity data.humidity), last1)
      else if last1.valid = true then
        (EspErr.ESP_OK, some (format_humidity last1.humidity), last1)
      else
        (EspErr.ESP_OK, some "--%", last1)

/-- C4: with an empty cache (no acquisition ever passed the checksum)
and every attempt failing, `dht11_read` surfaces the hard `ESP_FAIL`
error, while `dht11_get_temperature_string` (on a valid buffer) itself
succeeds and produces the placeholder string `"--.-C"`. -/
theorem dht11_cold_start_failure (env : Nat → AttemptOutcome)
    (cache : dht11_data_t) (buffer_size : Nat)
    (hfail : ∀ i c, (dht11_read_attempt (env i) c).1 ≠ EspErr.ESP_OK)
    (hvalid : cache.valid = false)
    (hsize : 8 ≤ buffer_size) :
    (dht11_read env cache).1 = EspErr.ESP_FAIL ∧
    dht11_get_temperature_string env cache buffer_size false =
      (EspErr.ESP_OK, some "--.-C", cache) := by
  have hread : dht11_read env cache =
      (EspErr.ESP_FAIL, ⟨0, 0, false⟩, cache, DHT11_MAX_RETRIES) := by
    unfold dht11_read
    rw [dht11_read_attempts_all_fail env hfail DHT11_MAX_RETRIES 1 cache]
    simp [hvalid]
  have h8 : ¬ buffer_size < 8 := by omega
  constructor
  · rw [hread]
  · unfold dht11_get_temperature_string
    rw [hread]
    simp [h8, hvalid]

/-- C4 (witness): empty cache, always-failing environment, 8-byte
buffer: `dht11_read` fails hard and the temperature accessor returns
the placeholder while succeeding. -/
theorem dht11_cold_start_failure_witness :
    (dht11_read (fun _ => AttemptOutcome.protocolFail) ⟨0, 0, false⟩).1 =
      EspErr.ESP_FAIL ∧
    dht11_get_temperature_string (fun _ => AttemptOutcome.protocolFail)
        ⟨0, 0, false⟩ 8 false =
      (EspErr.ESP_OK, some "--.-C", ⟨0, 0, false⟩) :=
  dht11_cold_start_failure (fun _ => AttemptOutcome.protocolFail)
    ⟨0, 0, false⟩ 8 (fun _ _ => by simp [dht11_read_attempt]) rfl
    (by omega)

/-- C7 (counterexample): with a zero-sized buffer both accessors return
`ESP_ERR_INVALID_ARG` and write nothing — refuting the claim that they
return success for every buffer argument. -/
theorem accessors_fail_on_undersized_buffer :
    dht11_get_temperature_string (fun _ => AttemptOutcome.protocolFail)
        ⟨0, 0, false⟩ 0 false =
      (EspErr.ESP_ERR_INVALID_ARG, none, ⟨0, 0, false⟩) ∧
    dht11_get_humidity_string (fun _ => AttemptOutcome.protocolFail)
        ⟨0, 0, false⟩ 0 false =
      (EspErr.ESP_ERR_INVALID_ARG, none, ⟨0, 0, false⟩) := by
  constructor
  · rfl
  · rfl

/-- C7 (amended): for every non-NULL buffer of sufficient size (`≥ 8`
for temperature, `≥ 6` for humidity), the accessors return `ESP_OK` and
write a string — the fresh reading's value, else the cached value, else
the explicit placeholder — whatever the environment and cache; both
obtain their data through `dht11_read` (visible in their definitions),
never bypassing the retry/cache path.  Buffers rejected by the argument
check (`NULL` or undersized) get `ESP_ERR_INVALID_ARG` instead. -/
theorem accessors_never_fail_on_valid_buffer (env : Nat → AttemptOutcome)
    (cache : dht11_data_t) (tsize hsize : Nat)
    (ht : 8 ≤ tsize) (hh : 6 ≤ hsize) :
    (dht11_get_temperature_string env cache tsize false).1 = EspErr.ESP_OK ∧
    ((dht11_get_temperature_string env cache tsize false).2.1).isSome = true ∧
    (dht11_get_humidity_string env cache hsize false).1 = EspErr.ESP_OK ∧
    ((dht11_get_humidity_string env cache hsize false).2.1).isSome = true := by
  have ht' : ¬ tsize < 8 := by omega
  have hh' : ¬ hsize < 6 := by omega
  unfold dht11_get_temperature_string dht11_get_humidity_string
  rcases hread : dht11_read env cache with ⟨ret, data, last1, n⟩
  by_cases h1 : ret = EspErr.ESP_OK ∧ data.valid = true
  · simp [ht', hh', h1]
  · by_cases h2 : last1.valid = true
    · simp [ht', hh', h1, h2]
    · simp [ht', hh', h1, h2]

/-- C7 (witness): concrete always-failing environment, empty cache and
minimal legal buffer sizes: both accessors succeed and write a
string. -/
theorem accessors_never_fail_on_valid_buffer_witness :
    (dht11_get_temperature_string (fun _ => AttemptOutcome.protocolFail)
        ⟨0, 0, false⟩ 8 false).1 = EspErr.ESP_OK ∧
    ((dht11_get_temperature_string (fun _ => AttemptOutcome.protocolFail)
        ⟨0, 0, false⟩ 8 false).2.1).isSome = true ∧
    (dht11_get_humidity_string (fun _ => AttemptOutcome.protocolFail)
        ⟨0, 0, false⟩ 6 false).1 = EspErr.ESP_OK ∧
    ((dht11_get_humidity_string (fun _ => AttemptOutcome.protocolFail)
        ⟨0, 0, false⟩ 6 false).2.1).isSome = true :=
  accessors_never_fail_on_valid_buffer (fun _ => AttemptOutcome.protocolFail)
    ⟨0, 0, false⟩ 8 6 (by omega) (by omega)

/-- `%.1f` rendering of the exact value `22.5` (shared support
lemma). -/
theorem format_temperature_twenty_two_point_five :
    format_temperature (45 / 2) = "22.5C" := by
  unfold format_temperature
  have h : ((45 : ℚ) / 2 * 10) = 225 := by norm_num
  rw [h]
  decide

/-- Conversion of the frame `[41, 0, 22, 5, 68]` (shared support
lemma): accepted, yielding temperature `45/2 = 22.5` and humidity `41`,
both as `integer_byte + fractional_byte / 10`. -/
theorem dht11_read_attempt_round_trip_frame :
    dht11_read_attempt (.frame 41 0 22 5 68) ⟨0, 0, false⟩ =
      (EspErr.ESP_OK, ⟨45 / 2, 41, true⟩, ⟨45 / 2, 41, true⟩) := by
  have hc : ¬ dht11_checksum 41 0 22 5 ≠ 68 % 256 := by decide
  simp only [dht11_read_attempt, hc, if_false]
  norm_num [dht11_data_t.mk.injEq, Prod.ext_iff]

/-- C8: the raw frame `[41, 0, 22, 5, 68]` (checksum `41+0+22+5 = 68`)
converts to `humidity = 41.0`, `temperature = 22.5` (computed as
`integer_byte + fractional_byte / 10`) with `valid = true`, and
`dht11_get_temperature_string` then renders exactly `"22.5"` followed
by the unit suffix `"C"`. -/
theorem round_trip_formatting :
    ((22 : ℚ) + 5 / 10 = 45 / 2 ∧ (41 : ℚ) + 0 / 10 = 41) ∧
    dht11_read_attempt (.frame 41 0 22 5 68) ⟨0, 0, false⟩ =
      (EspErr.ESP_OK, ⟨45 / 2, 41, true⟩, ⟨45 / 2, 41, true⟩) ∧
    (dht11_get_temperature_string (fun _ => .frame 41 0 22 5 68)
        ⟨0, 0, false⟩ 8 false).2.1 = some ("22.5" ++ "C") := by
  refine ⟨⟨by norm_num, by norm_num⟩, dht11_read_attempt_round_trip_frame, ?_⟩
  have hAtt : dht11_read_attempts (fun _ => AttemptOutcome.frame 41 0 22 5 68) 1
      DHT11_MAX_RETRIES ⟨0, 0, false⟩ =
      (some ⟨45 / 2, 41, true⟩, ⟨45 / 2, 41, true⟩, 1) := by
    rw [show DHT11_MAX_RETRIES = 2 + 1 from rfl, dht11_read_attempts_succ,
      dht11_read_attempt_round_trip_frame]
    simp
  have hR : dht11_read (fun _ => AttemptOutcome.frame 41 0 22 5 68) ⟨0, 0, false⟩ =
      (EspErr.ESP_OK, ⟨45 / 2, 41, true⟩, ⟨45 / 2, 41, true⟩, 1) := by
    unfold dht11_read
    rw [hAtt]
  unfold dht11_get_temperature_string
  rw [hR]
  simp [format_temperature_twenty_two_point_five]

/-! ## Initialization: `dht11_init` (`dht11.c` lines 261–292)

The data line's hardware configuration is modelled as the fields of the
ESP-IDF `gpio_config_t` that `dht11_init` sets, plus the driven output
level.  `gpio_config` only fails on a malformed configuration; the
configuration built by `dht11_init` is fixed and well-formed, so the
call is modelled as always applying it and returning `ESP_OK`. -/

/-- GPIO modes used by the driver. -/
inductive gpio_mode_t where
  | GPIO_MODE_INPUT
  | GPIO_MODE_OUTPUT_OD
deriving DecidableEq

/-- State of the DHT11 data line: configured mode, pull resistors,
interrupt enable, and the driven logic level. -/
structure gpio_state_t where
  mode : gpio_mode_t
  pull_up_en : Bool
  pull_down_en : Bool
  intr_enabled : Bool
  level : Nat
deriving DecidableEq

/-- `gpio_config(&config)` with the configuration literal of
`dht11_init` (`dht11.c` lines 267–274): open-drain output, pull-up
enabled, pull-down disabled, interrupts disabled. -/
def gpio_config_dht11 (s : gpio_state_t) : gpio_state_t :=
  { s with
    mode := gpio_mode_t.GPIO_MODE_OUTPUT_OD
    pull_up_en := true
    pull_down_en := false
    intr_enabled := false }

/-- `dht11_init()`: applies the configuration, then drives the line
high (idle state, line 285), returning `ESP_OK`. -/
def dht11_init (s : gpio_state_t) : EspErr × gpio_state_t :=
  let s1 := gpio_config_dht11 s
  let s2 := { s1 with level := 1 }
  (EspErr.ESP_OK, s2)

/-- C9: `dht11_init` is idempotent — both the first and a second call
return `ESP_OK`, the state after `init; init` equals the state after a
single `init`, and after each call the data line is configured as
open-drain output driven high (the idle state). -/
theorem dht11_init_idempotent (s : gpio_state_t) :
    (dht11_init s).1 = EspErr.ESP_OK ∧
    (dht11_init (dht11_init s).2).1 = EspErr.ESP_OK ∧
    (dht11_init (dht11_init s).2).2 = (dht11_init s).2 ∧
    (dht11_init s).2.mode = gpio_mode_t.GPIO_MODE_OUTPUT_OD ∧
    (dht11_init s).2.level = 1 ∧
    (dht11_init (dht11_init s).2).2.mode = gpio_mode_t.GPIO_MODE_OUTPUT_OD ∧
    (dht11_init (dht11_init s).2).2.level = 1 := by
  cases s
  refine ⟨rfl, rfl, rfl, rfl, rfl, rfl, rfl⟩

/-! ## The last-known-good cache invariant (`last_reading`, `dht11.c`
line 89)

`last_reading` is written in exactly one place (line 479, inside
`dht11_read_attempt`, after the checksum passed and `data->valid` was
set).  The exhaustion fallback (lines 550–556) only copies the cache
out and clears `valid` on the caller's copy.  The reachable cache
states are those produced by any sequence of public API calls, each
with an arbitrary environment. -/

/-- A failing attempt leaves the cache untouched; a cache write happens
only on a successful attempt and stores the fresh reading, whose
`valid` flag is `true` (shared support lemma). -/
theorem dht11_read_attempt_cache_write (out : AttemptOutcome)
    (c : dht11_data_t) :
    (dht11_read_attempt out c).2.2 = c ∨
      ((dht11_read_attempt out c).1 = EspErr.ESP_OK ∧
        (dht11_read_attempt out c).2.2 = (dht11_read_attempt out c).2.1 ∧
        ((dht11_read_attempt out c).2.1).valid = true) := by
  cases out with
  | protocolFail => left; rfl
  | frame b0 b1 b2 b3 b4 =>
    by_cases hc : dht11_checksum b0 b1 b2 b3 ≠ b4 % 256
    · left; simp [dht11_read_attempt, hc]
    · right; simp [dht11_read_attempt, hc]

/-- The retry loop either leaves the cache untouched or leaves it with
`valid = true` (shared support lemma). -/
theorem dht11_read_attempts_cache (env : Nat → AttemptOutcome) :
    ∀ remaining attempt c,
      (dht11_read_attempts env attempt remaining c).2.1 = c ∨
        ((dht11_read_attempts env attempt remaining c).2.1).valid = true := by
  intro remaining
  induction remaining with
  | zero => intro attempt c; left; rfl
  | succ n ih =>
    intro attempt c
    rcases hA : dht11_read_attempt (env attempt) c with ⟨ret, data, last1⟩
    have hcache := dht11_read_attempt_cache_write (env attempt) c
    rw [hA] at hcache
    rw [dht11_read_attempts_succ, hA]
    by_cases hret : ret = EspErr.ESP_OK
    · simp only [hret, if_true]
      rcases hcache with h | ⟨-, h, h'⟩
      · left; simpa using h
      · right; simp only at h h' ⊢
        rw [h]; exact h'
    · simp only [hret, if_false]
      rcases hres : dht11_read_attempts env (attempt + 1) n last1 with ⟨res, last2, m⟩
      have hrec := ih (attempt + 1) last1
      rw [hres] at hrec
      rcases hcache with h | ⟨hok, -, -⟩
    

      · simp only at h
        rcases hrec with h' | h'
        · left; simp only at h' ⊢; rw [h', h]
        · right; simpa using h'
      · exact absurd hok hret

/-- `dht11_read` either leaves the cache untouched or leaves it with
`valid = true` (shared support lemma). -/
theorem dht11_read_cache (env : Nat → AttemptOutcome) (c : dht11_data_t) :
    (dht11_read env c).2.2.1 = c ∨ ((dht11_read env c).2.2.1).valid = true := by
  have h := dht11_read_attempts_cache env DHT11_MAX_RETRIES 1 c
  unfold dht11_read
  rcases hres : dht11_read_attempts env 1 DHT11_MAX_RETRIES c with ⟨res, last1, n⟩
  rw [hres] at h
  cases res with
  | some data => simpa using h
  | none =>
    by_cases hv : last1.valid = true
    · simp [hv]
    · simp only [hv, if_false]
      simpa using h

/-- The temperature accessor either leaves the cache untouched or
leaves it with `valid = true` (shared support lemma). -/
theorem dht11_get_temperature_string_cache (env : Nat → AttemptOutcome)
    (c : dht11_data_t) (buffer_size : Nat) (buffer_is_null : Bool) :
    (dht11_get_temperature_string env c buffer_size buffer_is_null).2.2 = c ∨
      ((dht11_get_temperature_string env c buffer_size buffer_is_null).2.2).valid =
        true := by
  unfold dht11_get_temperature_string
  by_cases harg : buffer_is_null = true ∨ buffer_size < 8
  · simp [harg]
  · simp only [harg, if_false]
    have h := dht11_read_cache env c
    rcases hres : dht11_read env c with ⟨ret, data, last1, m⟩
    rw [hres] at h
    simp only at h
    split_ifs <;> simpa using h

/-- The humidity accessor either leaves the cache untouched or leaves
it with `valid = true` (shared support lemma). -/
theorem dht11_get_humidity_string_cache (env : Nat → AttemptOutcome)
    (c : dht11_data_t) (buffer_size : Nat) (buffer_is_null : Bool) :
    (dht11_get_humidity_string env c buffer_size buffer_is_null).2.2 = c ∨
      ((dht11_get_humidity_string env c buffer_size buffer_is_null).2.2).valid =
        true := by
  unfold dht11_get_humidity_string
  by_cases harg : buffer_is_null = true ∨ buffer_size < 6
  · simp [harg]
  · simp only [harg, if_false]
    have h := dht11_read_cache env c
    rcases hres : dht11_read env c with ⟨ret, data, last1, m⟩
    rw [hres] at h
    simp only at h
    split_ifs <;> simpa using h

/-- One public API call of the driver, with its environment. -/
inductive ApiCall where
  | read (env : Nat → AttemptOutcome)
  | temperatureString (env : Nat → AttemptOutcome) (buffer_size : Nat)
      (buffer_is_null : Bool)
  | humidityString (env : Nat → AttemptOutcome) (buffer_size : Nat)
      (buffer_is_null : Bool)
  | init

/-- The value of the module-level cache `last_reading` after one API
call. -/
def cache_after : ApiCall → dht11_data_t → dht11_data_t
  | .read env, c => (dht11_read env c).2.2.1
  | .temperatureString env n b, c => (dht11_get_temperature_string env c n b).2.2
  | .humidityString env n b, c => (dht11_get_humidity_string env c n b).2.2
  | .init, c => c

/-- The cache after a sequence of API calls starting from cache `c`. -/
def run_calls (calls : List ApiCall) (c : dht11_data_t) : dht11_data_t :=
  calls.foldl (fun s k => cache_after k s) c

/-- Every single API call either leaves the cache untouched or leaves
it holding a reading with `valid = true` (shared support lemma). -/
theorem cache_after_step (k : ApiCall) (c : dht11_data_t) :
    cache_after k c = c ∨ (cache_after k c).valid = true := by
  cases k with
  | read env => exact dht11_read_cache env c
  | temperatureString env n b => exact dht11_get_temperature_string_cache env c n b
  | humidityString env n b => exact dht11_get_humidity_string_cache env c n b
  | init => left; rfl

/-- C10: the cache is failure-atomic and monotone.  At the attempt
level, the cache is written only by a checksum-valid acquisition, and
then always with `valid = true`; at the API level every call either
leaves the cache unchanged or leaves it valid, so along every sequence
of API calls, once `last_reading.valid` is `true` it stays `true`. -/
theorem last_reading_monotone :
    (∀ out c, (dht11_read_attempt out c).2.2 = c ∨
      ((dht11_read_attempt out c).1 = EspErr.ESP_OK ∧
        (dht11_read_attempt out c).2.2 = (dht11_read_attempt out c).2.1 ∧
        ((dht11_read_attempt out c).2.1).valid = true)) ∧
    (∀ k c, cache_after k c = c ∨ (cache_after k c).valid = true) ∧
    (∀ calls c, c.valid = true → (run_calls calls c).valid = true) := by
  refine ⟨dht11_read_attempt_cache_write, cache_after_step, ?_⟩
  intro calls
  induction calls with
  | nil => intro c hv; simpa [run_calls] using hv
  | cons k ks ih =>
    intro c hv
    have hstep : (cache_after k c).valid = true := by
      rcases cache_after_step k c with h | h
      · rw [h]; exact hv
      · exact h
    have : run_calls (k :: ks) c = run_calls ks (cache_after k c) := rfl
    rw [this]
    exact ih (cache_after k c) hstep

/-- C10 (witness): starting from a valid cached reading, a completely
failing read cycle leaves the cache valid. -/
theorem last_reading_monotone_witness :
    (run_calls [ApiCall.read (fun _ => AttemptOutcome.protocolFail)]
      ⟨45 / 2, 41, true⟩).valid = true :=
  last_reading_monotone.2.2
    [ApiCall.read (fun _ => AttemptOutcome.protocolFail)] ⟨45 / 2, 41, true⟩ rfl
